import Mathlib

/-!
Verification of the event-descriptor resolution engine of `h7ml/test-utils`,
a Vue-test-utils style harness. The repository snapshot contains only the
trigger test suite and the `WrapperLike` interface; the engine itself
(`src/createDomEvent` and the wrapper's `trigger`) is reconstructed below
from the specification, with the repository's own test assertions taking
precedence where the two disagree.
-/

deriving instance DecidableEq for Except

namespace VueTestUtils

/-- Modelled from the spec: a JS-like property value as it appears on the
event object (string, number, or boolean field). The real code stores these
as plain JS properties; here a flat sum type. -/
inductive Value where
  | str (s : String)
  | num (n : Nat)
  | bool (b : Bool)
  deriving DecidableEq, Repr

/-- Modelled from the spec: the flat property bag of a resolved event
(`propertyBag` in spec §4.2), an association list keyed by property name. -/
abbrev Bag := List (String × Value)

/-- Read a property from a bag: first binding for the name wins. -/
def getProp : Bag → String → Option Value
  | [], _ => none
  | (k, v) :: rest, name => if k = name then some v else getProp rest name

/-- Set a property in a bag, replacing an existing binding for the name. -/
def setProp : Bag → String → Value → Bag
  | [], name, v => [(name, v)]
  | (k, w) :: rest, name, v =>
    if k = name then (name, v) :: rest else (k, w) :: setProp rest name v

/-- String membership in a list, as the engine's closed-set checks use it. -/
def strMem (s : String) : List String → Bool
  | [] => false
  | t :: ts => if t = s then true else strMem s ts

/-- Modelled from the spec: `keyCodesByKeyName` of the missing
`src/createDomEvent` — the KeyModifier table mapping a lowercase key name to
its numeric key code (spec §3 gives `enter`, `esc`, `left` as examples; the
full table is the standard one exercised by the test suite's loop). -/
def keyCodesByKeyName : List (String × Nat) :=
  [("backspace", 8), ("tab", 9), ("enter", 13), ("esc", 27), ("space", 32),
   ("pageup", 33), ("pagedown", 34), ("end", 35), ("home", 36),
   ("left", 37), ("up", 38), ("right", 39), ("down", 40),
   ("insert", 45), ("delete", 46)]

/-- Exact-case lookup in the KeyModifier table (spec §4.2: key-name matching
is exact-case). -/
def lookupKey : List (String × Nat) → String → Option Nat
  | [], _ => none
  | (k, c) :: rest, name => if k = name then some c else lookupKey rest name

/-- Modelled from the spec: the GenericModifier set
`{stop, prevent, capture, self, once, passive}` — recognized but inert. -/
def genericModifiers : List String :=
  ["stop", "prevent", "capture", "self", "once", "passive"]

/-- Modelled from the spec: the mouse/pointer event family (`click` or
compatible) consulted before applying a MouseButtonModifier. -/
def mouseEventNames : List String :=
  ["click", "dblclick", "mousedown", "mouseup", "mousemove",
   "mouseover", "mouseout", "mouseenter", "mouseleave", "contextmenu"]

/-- Whether a base event name belongs to the mouse family. -/
def isMouseFamily (base : String) : Bool :=
  strMem base mouseEventNames

/-- Split a character list on `.`, accumulating the current segment. -/
def splitAux : List Char → List Char → List String
  | [], acc => [String.mk acc.reverse]
  | c :: cs, acc =>
    if c = '.' then String.mk acc.reverse :: splitAux cs []
    else splitAux cs (c :: acc)

/-- Modelled from the spec: the Descriptor Parser (spec §4.1) — split the
descriptor on `.`; segment 0 is the base event name, the rest are modifier
tokens in authored order, unvalidated. -/
def parseDescriptor (s : String) : String × List String :=
  match splitAux s.data [] with
  | [] => ("", [])
  | base :: mods => (base, mods)

/-- Modelled from the spec: one step of the Event Shape Resolver (spec §4.2
step 2), classifying a single modifier token against the tables. A
MouseButtonModifier on a mouse-family base sets `button` and overrides the
event type; a KeyModifier token sets `key` to the literal token and `keyCode`
from the table; a GenericModifier has no effect; `ctrl`/`shift`/`meta`/`alt`
set the corresponding boolean flag; any other token is ignored. -/
def applyModifier (base : String) (st : String × Bag) (m : String) : String × Bag :=
  let ty := st.1
  let bag := st.2
  if isMouseFamily base && (m = "right" || m = "middle") then
    if m = "right" then ("contextmenu", setProp bag "button" (.num 2))
    else ("mouseup", setProp bag "button" (.num 1))
  else
    match lookupKey keyCodesByKeyName m with
    | some c => (ty, setProp (setProp bag "key" (.str m)) "keyCode" (.num c))
    | none =>
      if strMem m genericModifiers then (ty, bag)
      else if m = "ctrl" then (ty, setProp bag "ctrlKey" (.bool true))
      else if m = "shift" then (ty, setProp bag "shiftKey" (.bool true))
      else if m = "meta" then (ty, setProp bag "metaKey" (.bool true))
      else if m = "alt" then (ty, setProp bag "altKey" (.bool true))
      else (ty, bag)

/-- The resolved event: final type plus flat property bag (spec §3,
`ResolvedEvent`). -/
structure DomEvent where
  type : String
  props : Bag
  deriving DecidableEq, Repr

/-- Modelled from the spec: the Event Shape Resolver (spec §4.2). Caller
options are merged into the empty bag first and the modifier chain is applied
over them, so modifier-derived `key`/`keyCode` override caller options — the
order the repository's own test (part_000 lines 181-194, titled
"overwrites key if passed as a modifier") pins down, which contradicts the
caller-wins wording of spec §4.2 step 3. -/
def resolveEvent (base : String) (mods : List String) (options : Bag) : DomEvent :=
  let bag0 := options.foldl (fun bag p => setProp bag p.1 p.2) []
  let st := mods.foldl (applyModifier base) (base, bag0)
  ⟨st.1, st.2⟩

/-- The fixed user-facing message of the ForbiddenOption rejection, verbatim
from the test suite. -/
def targetErrorMessage : String :=
  "[vue-test-utils]: you cannot set the target value of an event. See the notes section of the docs for more details—https://vue-test-utils.vuejs.org/api/wrapper/trigger.html"

/-- The MalformedDescriptor failure message (spec §7, empty descriptor). -/
def malformedDescriptorMessage : String :=
  "[vue-test-utils]: event string must not be empty"

/-- Modelled from the spec: `createDOMEvent` of the missing
`src/createDomEvent` — parse the descriptor and resolve the event shape;
fails only on an empty descriptor string (spec §4.1). -/
def createDOMEvent (eventString : String) (options : Bag) : Except String DomEvent :=
  if eventString = "" then .error malformedDescriptorMessage
  else
    let p := parseDescriptor eventString
    .ok (resolveEvent p.1 p.2 options)

/-- The target node, as far as the Dispatch Guard observes it: its tag name
and whether it currently carries a disabled state. -/
structure Elem where
  tagName : String
  disabled : Bool
  deriving DecidableEq, Repr

/-- Modelled from the spec: the closed set of form-control tags whose
disabled state suppresses dispatch (spec §4.3). -/
def elementsThatCanBeDisabled : List String :=
  ["button", "fieldset", "optgroup", "option", "select", "textarea", "input"]

/-- Modelled from the spec: the Dispatch Guard predicate — suppress only when
the tag is in the closed form-control set and the node is disabled. -/
def isDisabled (el : Elem) : Bool :=
  el.disabled && strMem el.tagName elementsThatCanBeDisabled

/-- Modelled from the spec: the wrapper's `trigger` (implementation missing
from src/; only its interface `WrapperLike.trigger` and tests are present).
Rejects first on a caller-supplied `target` option, then consults the
Dispatch Guard, then builds and dispatches the resolved event. The returned
list is the sequence of events actually dispatched to (and hence observable
by) handlers — empty when the guard suppresses dispatch. -/
def trigger (el : Elem) (eventString : String) (options : Bag) :
    Except String (List DomEvent) :=
  if (getProp options "target").isSome then .error targetErrorMessage
  else if isDisabled el then .ok []
  else
    match createDOMEvent eventString options with
    | .error e => .error e
    | .ok ev => .ok [ev]

/-- A plain `div` target node with no disabled state. -/
def divElem : Elem := ⟨"div", false⟩

/-- An `input` target node with no disabled state, as the keyboard tests use. -/
def inputElem : Elem := ⟨"input", false⟩

/-! ## Basic lemmas about the property bag and the closed-set checks -/

theorem getProp_setProp_same (l : Bag) (k : String) (v : Value) :
    getProp (setProp l k v) k = some v := by
  induction l with
  | nil => simp [setProp, getProp]
  | cons p rest ih =>
    obtain ⟨k', w⟩ := p
    by_cases h : k' = k
    · simp [setProp, getProp, h]
    · simp [setProp, getProp, h, ih]

theorem getProp_setProp_ne (l : Bag) (k k' : String) (v : Value) (h : k ≠ k') :
    getProp (setProp l k v) k' = getProp l k' := by
  induction l with
  | nil => simp [setProp, getProp, h]
  | cons p rest ih =>
    obtain ⟨k0, w⟩ := p
    by_cases h0 : k0 = k
    · subst h0
      simp [setProp, getProp, h]
    · by_cases h1 : k0 = k'
      · subst h1
        simp [setProp, getProp, h0]
      · simp [setProp, getProp, h0, h1, ih]

theorem strMem_eq_true_iff (s : String) (l : List String) :
    strMem s l = true ↔ s ∈ l := by
  induction l with
  | nil => simp [strMem]
  | cons t ts ih =>
    by_cases h : t = s
    · simp [strMem, h]
    · simp [strMem, h, ih]
      intro he
      exact (h he.symm).elim

theorem splitAux_no_dot (l acc : List Char) (h : ∀ c ∈ l, c ≠ '.') :
    splitAux l acc = [String.mk (acc.reverse ++ l)] := by
  induction l generalizing acc with
  | nil => simp [splitAux]
  | cons c cs ih =>
    have hc : c ≠ '.' := h c (by simp)
    have hcs : ∀ c' ∈ cs, c' ≠ '.' := fun c' hc' => h c' (by simp [hc'])
    simp [splitAux, hc, ih (c :: acc) hcs]

/-! ## Per-token resolver equations for the keyboard family -/

theorem applyModifier_keydown_ctrl (ty : String) (bag : Bag) :
    applyModifier "keydown" (ty, bag) "ctrl" = (ty, setProp bag "ctrlKey" (.bool true)) := rfl

theorem applyModifier_keydown_shift (ty : String) (bag : Bag) :
    applyModifier "keydown" (ty, bag) "shift" = (ty, setProp bag "shiftKey" (.bool true)) := rfl

theorem applyModifier_keydown_left (ty : String) (bag : Bag) :
    applyModifier "keydown" (ty, bag) "left" =
      (ty, setProp (setProp bag "key" (.str "left")) "keyCode" (.num 37)) := rfl

/-- Invariant of the modifier fold for chains drawn from
`{ctrl, shift, left}` on a keyboard base: the event type is unchanged and
each resolved field depends only on which tokens occur, not on their order
or multiplicity. -/
theorem foldl_keydown_ctrl_shift_left (mods : List String) (ty : String) (bag : Bag)
    (hall : ∀ m ∈ mods, m = "ctrl" ∨ m = "shift" ∨ m = "left") :
    (mods.foldl (applyModifier "keydown") (ty, bag)).1 = ty ∧
    getProp (mods.foldl (applyModifier "keydown") (ty, bag)).2 "ctrlKey" =
      (if "ctrl" ∈ mods then some (.bool true) else getProp bag "ctrlKey") ∧
    getProp (mods.foldl (applyModifier "keydown") (ty, bag)).2 "shiftKey" =
      (if "shift" ∈ mods then some (.bool true) else getProp bag "shiftKey") ∧
    getProp (mods.foldl (applyModifier "keydown") (ty, bag)).2 "key" =
      (if "left" ∈ mods then some (.str "left") else getProp bag "key") ∧
    getProp (mods.foldl (applyModifier "keydown") (ty, bag)).2 "keyCode" =
      (if "left" ∈ mods then some (.num 37) else getProp bag "keyCode") := by
  induction mods generalizing bag with
  | nil => simp
  | cons m ms ih =>
    have hms : ∀ x ∈ ms, x = "ctrl" ∨ x = "shift" ∨ x = "left" :=
      fun x hx => hall x (List.mem_cons_of_mem m hx)
    rcases hall m (List.mem_cons_self m ms) with hm | hm | hm <;> subst hm
    · obtain ⟨h1, h2, h3, h4, h5⟩ := ih (setProp bag "ctrlKey" (.bool true)) hms
      rw [List.foldl_cons, applyModifier_keydown_ctrl]
      refine ⟨h1, ?_, ?_, ?_, ?_⟩
      · rw [h2]
        simp [getProp_setProp_same]
      · rw [h3, getProp_setProp_ne _ "ctrlKey" "shiftKey" _ (by decide)]
        simp
      · rw [h4, getProp_setProp_ne _ "ctrlKey" "key" _ (by decide)]
        simp
      · rw [h5, getProp_setProp_ne _ "ctrlKey" "keyCode" _ (by decide)]
        simp
    · obtain ⟨h1, h2, h3, h4, h5⟩ := ih (setProp bag "shiftKey" (.bool true)) hms
      rw [List.foldl_cons, applyModifier_keydown_shift]
      refine ⟨h1, ?_, ?_, ?_, ?_⟩
      · rw [h2, getProp_setProp_ne _ "shiftKey" "ctrlKey" _ (by decide)]
        simp
      · rw [h3]
        simp [getProp_setProp_same]
      · rw [h4, getProp_setProp_ne _ "shiftKey" "key" _ (by decide)]
        simp
      · rw [h5, getProp_setProp_ne _ "shiftKey" "keyCode" _ (by decide)]
        simp
    · obtain ⟨h1, h2, h3, h4, h5⟩ :=
        ih (setProp (setProp bag "key" (.str "left")) "keyCode" (.num 37)) hms
      rw [List.foldl_cons, applyModifier_keydown_left]
      refine ⟨h1, ?_, ?_, ?_, ?_⟩
      · rw [h2, getProp_setProp_ne _ "keyCode" "ctrlKey" _ (by decide),
          getProp_setProp_ne _ "key" "ctrlKey" _ (by decide)]
        simp
      · rw [h3, getProp_setProp_ne _ "keyCode" "shiftKey" _ (by decide),
          getProp_setProp_ne _ "key" "shiftKey" _ (by decide)]
        simp
      · rw [h4, getProp_setProp_ne _ "keyCode" "key" _ (by decide), getProp_setProp_same]
        simp
      · rw [h5, getProp_setProp_same]
        simp

/-! ## Claim theorems -/

/-- C1 counterexample: the claim that `trigger("keydown.enter", {key: "up"})`
dispatches an event with `key = "up"` is false — the dispatched event's `key`
is `"enter"` (the modifier overrides the caller option, as the repository's
test asserts). -/
theorem trigger_keydown_enter_key_option_counterexample :
    ¬ (∀ ev, trigger inputElem "keydown.enter" [("key", Value.str "up")] = .ok [ev] →
        getProp ev.props "key" = some (.str "up")) := by
  intro h
  have hev := h ⟨"keydown", [("key", .str "enter"), ("keyCode", .num 13)]⟩ (by decide)
  exact absurd hev (by decide)

/-- C1 (amended): for `trigger("keydown.enter", {key: "up"})` the
modifier-derived fields win over caller options: the dispatched event has
`key = "enter"` and `keyCode = 13`, both from the `.enter` modifier; the
caller's `key` option is overwritten. -/
theorem trigger_keydown_enter_key_option_modifier_wins :
    trigger inputElem "keydown.enter" [("key", Value.str "up")] =
      .ok [⟨"keydown", [("key", .str "enter"), ("keyCode", .num 13)]⟩] := by
  decide

/-- C2: `trigger("click.right")` dispatches exactly one event of type
`contextmenu` with `button = 2`, and `trigger("click.middle")` dispatches
exactly one event of type `mouseup` with `button = 1`. -/
theorem trigger_click_right_middle :
    trigger divElem "click.right" [] = .ok [⟨"contextmenu", [("button", .num 2)]⟩] ∧
    trigger divElem "click.middle" [] = .ok [⟨"mouseup", [("button", .num 1)]⟩] := by
  decide

/-- C3: for every key name in the `keyCodesByKeyName` table,
`trigger("keydown." + k)` dispatches one `keydown` event whose `key` is the
literal token and whose `keyCode` is the table's code. -/
theorem trigger_keydown_key_name_table (p : String × Nat) (h : p ∈ keyCodesByKeyName) :
    trigger inputElem ("keydown." ++ p.1) [] =
      .ok [⟨"keydown", [("key", .str p.1), ("keyCode", .num p.2)]⟩] := by
  fin_cases h <;> rfl

/-- C3 witness: instantiated at the `enter` entry of the table. -/
theorem trigger_keydown_key_name_table_witness :
    ("enter", 13) ∈ keyCodesByKeyName ∧
    trigger inputElem ("keydown." ++ "enter") [] =
      .ok [⟨"keydown", [("key", .str "enter"), ("keyCode", .num 13)]⟩] :=
  ⟨by decide, trigger_keydown_key_name_table ("enter", 13) (by decide)⟩

/-- C4: a disabled node whose tag is in the closed form-control set
suppresses `trigger("click")` entirely (no event dispatched), while a
disabled node with any tag outside the set dispatches exactly one click
event. -/
theorem trigger_click_disabled_guard (tag : String) :
    (tag ∈ elementsThatCanBeDisabled → trigger ⟨tag, true⟩ "click" [] = .ok []) ∧
    (tag ∉ elementsThatCanBeDisabled →
      trigger ⟨tag, true⟩ "click" [] = .ok [⟨"click", []⟩]) := by
  constructor
  · intro hmem
    have hd : isDisabled ⟨tag, true⟩ = true := by
      simp only [isDisabled, Bool.true_and]
      exact (strMem_eq_true_iff tag elementsThatCanBeDisabled).mpr hmem
    simp [trigger, getProp, hd]
  · intro hmem
    have hd : isDisabled ⟨tag, true⟩ = false := by
      simp only [isDisabled, Bool.true_and]
      rw [Bool.eq_false_iff, Ne, strMem_eq_true_iff]
      exact hmem
    have hcd : createDOMEvent "click" [] = .ok ⟨"click", []⟩ := rfl
    simp [trigger, getProp, hd, hcd]

/-- C4 witness: a disabled `button` suppresses dispatch; a disabled `div`
does not. -/
theorem trigger_click_disabled_guard_witness :
    trigger ⟨"button", true⟩ "click" [] = .ok [] ∧
    trigger ⟨"div", true⟩ "click" [] = .ok [⟨"click", []⟩] :=
  ⟨(trigger_click_disabled_guard "button").1 (by decide),
   (trigger_click_disabled_guard "div").2 (by decide)⟩

/-- C5: whenever the options carry a `target` field, `trigger` rejects with
the fixed user-facing message before any dispatch — no event is produced for
any handler. -/
theorem trigger_rejects_target_option (el : Elem) (s : String) (options : Bag)
    (h : (getProp options "target").isSome = true) :
    trigger el s options = .error targetErrorMessage := by
  simp [trigger, h]

/-- C5 witness: the test suite's call `trigger("click", {target: "something"})`
rejects with the fixed message. -/
theorem trigger_rejects_target_option_witness :
    trigger divElem "click" [("target", Value.str "something")] =
      .error targetErrorMessage :=
  trigger_rejects_target_option divElem "click" [("target", Value.str "something")]
    (by decide)

/-- C6: for any descriptor whose base is `keydown` and whose modifier chain
is any ordering, with any duplication, of tokens drawn from
`{ctrl, shift, left}` containing all three, the dispatched event has
`ctrlKey = true`, `shiftKey = true`, and `key = "left"`. -/
theorem trigger_keydown_modifier_order_irrelevant (s : String) (mods : List String)
    (hp : parseDescriptor s = ("keydown", mods))
    (hall : ∀ m ∈ mods, m = "ctrl" ∨ m = "shift" ∨ m = "left")
    (hc : "ctrl" ∈ mods) (hs : "shift" ∈ mods) (hl : "left" ∈ mods) :
    ∃ ev, trigger inputElem s [] = .ok [ev] ∧
      getProp ev.props "ctrlKey" = some (.bool true) ∧
      getProp ev.props "shiftKey" = some (.bool true) ∧
      getProp ev.props "key" = some (.str "left") := by
  have hne : s ≠ "" := by
    intro h
    rw [h] at hp
    have h0 : parseDescriptor "" = ("", []) := rfl
    rw [h0] at hp
    have hbase : ("" : String) = "keydown" := congrArg Prod.fst hp
    exact absurd hbase (by decide)
  have H := foldl_keydown_ctrl_shift_left mods "keydown" [] hall
  refine ⟨resolveEvent "keydown" mods [], ?_, ?_, ?_, ?_⟩
  · have hd : isDisabled inputElem = false := rfl
    simp [trigger, getProp, hd, createDOMEvent, hne, hp]
  · show getProp (mods.foldl (applyModifier "keydown") ("keydown", [])).2 "ctrlKey" = _
    rw [H.2.1, if_pos hc]
  · show getProp (mods.foldl (applyModifier "keydown") ("keydown", [])).2 "shiftKey" = _
    rw [H.2.2.1, if_pos hs]
  · show getProp (mods.foldl (applyModifier "keydown") ("keydown", [])).2 "key" = _
    rw [H.2.2.2.1, if_pos hl]

/-- C6 witness: instantiated at the descriptor `keydown.ctrl.shift.left`. -/
theorem trigger_keydown_modifier_order_irrelevant_witness :
    ∃ ev, trigger inputElem "keydown.ctrl.shift.left" [] = .ok [ev] ∧
      getProp ev.props "ctrlKey" = some (.bool true) ∧
      getProp ev.props "shiftKey" = some (.bool true) ∧
      getProp ev.props "key" = some (.str "left") :=
  trigger_keydown_modifier_order_irrelevant "keydown.ctrl.shift.left"
    ["ctrl", "shift", "left"] (by decide) (by decide) (by decide) (by decide) (by decide)

/-- C7: `trigger("keydown", {keyCode: 65})` dispatches an event whose
property bag is exactly `{keyCode: 65}` — no `key` field is inferred — and an
options-supplied `key` string passes through literally with its exact casing
and with no `keyCode` inferred from it. -/
theorem trigger_keydown_options_literal :
    trigger inputElem "keydown" [("keyCode", .num 65)] =
      .ok [⟨"keydown", [("keyCode", .num 65)]⟩] ∧
    trigger inputElem "keydown" [("key", .str "ENTER")] =
      .ok [⟨"keydown", [("key", .str "ENTER")]⟩] ∧
    trigger inputElem "keydown" [("key", .str "Enter")] =
      .ok [⟨"keydown", [("key", .str "Enter")]⟩] := by
  decide

/-- C8: each generic modifier in `{stop, prevent, capture, self, once,
passive}` is inert — attaching it to the descriptor yields exactly the same
dispatched result (same type, same property bag) as the modifier-free
trigger. -/
theorem trigger_generic_modifiers_inert (g : String) (h : g ∈ genericModifiers) :
    trigger inputElem ("keydown." ++ g) [] = trigger inputElem "keydown" [] := by
  fin_cases h <;> rfl

/-- C8 witness: instantiated at the `stop` modifier. -/
theorem trigger_generic_modifiers_inert_witness :
    ("stop" : String) ∈ genericModifiers ∧
    trigger inputElem ("keydown." ++ "stop") [] = trigger inputElem "keydown" [] :=
  ⟨by decide, trigger_generic_modifiers_inert "stop" (by decide)⟩

/-- C9: any caller-supplied option field other than the forbidden `target`
appears unchanged, with the same value, on the dispatched event object. -/
theorem trigger_custom_option_passthrough (name : String) (v : Value)
    (h : name ≠ "target") :
    ∃ ev, trigger divElem "update" [(name, v)] = .ok [ev] ∧
      getProp ev.props name = some v := by
  refine ⟨⟨"update", [(name, v)]⟩, ?_, ?_⟩
  · have h1 : (getProp [(name, v)] "target").isSome = false := by
      simp [getProp, h]
    have h2 : isDisabled divElem = false := rfl
    have h3 : createDOMEvent "update" [(name, v)] = .ok ⟨"update", [(name, v)]⟩ := rfl
    simp [trigger, h1, h2, h3]
  · simp [getProp]

/-- C9 witness: instantiated at the test suite's `{customData: 123}`. -/
theorem trigger_custom_option_passthrough_witness :
    ∃ ev, trigger divElem "update" [("customData", Value.num 123)] = .ok [ev] ∧
      getProp ev.props "customData" = some (Value.num 123) :=
  trigger_custom_option_passthrough "customData" (Value.num 123) (by decide)

/-- The characters of a string reassemble to the same string. -/
theorem string_mk_data (s : String) : String.mk s.data = s := rfl

/-- C10: `trigger` accepts any non-empty, dot-free base event name — not only
the known mouse/keyboard families — and dispatches exactly one event of
exactly that type. -/
theorem trigger_arbitrary_event_name (base : String) (hne : base ≠ "")
    (hdot : ∀ c ∈ base.data, c ≠ '.') :
    trigger divElem base [] = .ok [⟨base, []⟩] := by
  have hparse : parseDescriptor base = (base, []) := by
    simp [parseDescriptor, splitAux_no_dot base.data [] hdot, string_mk_data]
  have hcd : createDOMEvent base [] = .ok ⟨base, []⟩ := by
    simp [createDOMEvent, hne, hparse, resolveEvent]
  have hd : isDisabled divElem = false := rfl
  simp [trigger, getProp, hd, hcd]

/-- C10 witness: instantiated at the test suite's custom `update` event. -/
theorem trigger_arbitrary_event_name_witness :
    trigger divElem "update" [] = .ok [⟨"update", []⟩] :=
  trigger_arbitrary_event_name "update" (by decide) (by decide)

end VueTestUtils
